import Mathlib

/-!
Verification development for the playwright-rust CLI core.

The Rust sources are shallowly embedded: pure functions become Lean
functions over `String`/`List Char`/`Nat`; stateful code is embedded as
explicit state passing; filesystem and clock inputs become explicit
parameters.  Regex uses in the readable pipeline are embedded by direct
implementations of the concrete patterns' matching semantics.  A few
items are absent from the provided sources (the clutter.json pattern
configuration, the `CommandDef` trait constants, the session descriptor
struct, the batch response type and the error-code mapping); those are
modelled from the specification and marked `Modelled from the spec:` in
their doc comments.
-/

set_option maxRecDepth 4000

/-! ## Generic string helpers (embedding Rust `str` operations) -/

/-- Lowercase a character list (embeds Rust `str::to_lowercase` for the
ASCII-range inputs used throughout the CLI). -/
def lowerChars (s : List Char) : List Char := s.map Char.toLower

/-- Lowercase a string. -/
def strLower (s : String) : String := String.mk (lowerChars s.toList)

/-- First index `i ≥ start` at which `pat` occurs in `hay`. -/
def subFind (hay pat : List Char) (start : Nat) : Option Nat :=
  (List.range (hay.length + 1)).find? (fun i => decide (start ≤ i) && pat.isPrefixOf (hay.drop i))

/-- Last index `i ≥ start` at which `pat` occurs in `hay`. -/
def subFindLast (hay pat : List Char) (start : Nat) : Option Nat :=
  ((List.range (hay.length + 1)).filter
    (fun i => decide (start ≤ i) && pat.isPrefixOf (hay.drop i))).getLast?

/-- First index `i ≥ start` at which character `c` occurs in `hay`. -/
def charFind (hay : List Char) (c : Char) (start : Nat) : Option Nat :=
  subFind hay [c] start

/-- Substring containment (embeds Rust `str::contains` on already-lowercased data). -/
def contains_sub (hay pat : List Char) : Bool :=
  (subFind hay pat 0).isSome

/-- Slice `h` from index `a` (inclusive) to `b` (exclusive). -/
def seg (h : List Char) (a b : Nat) : List Char :=
  (h.drop a).take (b - a)

/-- Replace every non-overlapping occurrence of `pat` by `rep`, scanning left
to right (embeds Rust `str::replace`).  `fuel` is a structural-recursion
bound; callers pass the input length, which suffices because every step
consumes at least one character.  The empty pattern (never used by the CLI)
is treated as matching nothing. -/
def replaceCharsFuel (pat rep : List Char) : Nat → List Char → List Char
  | 0, s => s
  | _ + 1, [] => []
  | fuel + 1, c :: rest =>
    if pat ≠ [] ∧ pat.isPrefixOf (c :: rest) then
      rep ++ replaceCharsFuel pat rep fuel ((c :: rest).drop pat.length)
    else
      c :: replaceCharsFuel pat rep fuel rest

/-- Rust `str::replace`. -/
def rust_replace (s pat rep : String) : String :=
  String.mk (replaceCharsFuel pat.toList rep.toList s.toList.length s.toList)

/-! ## Output envelope (crates/cli/src/output/model.rs, result_builder.rs) -/

/-- JSON values, used wherever the source uses `serde_json::Value`. -/
inductive Json where
  | null : Json
  | bool (b : Bool) : Json
  | num (n : Int) : Json
  | str (s : String) : Json
  | arr (xs : List Json) : Json
  | obj (fields : List (String × Json)) : Json

/-- Current schema version for command output (`SCHEMA_VERSION`). -/
def SCHEMA_VERSION : Nat := 4

/-- Error codes (`enum ErrorCode`). -/
inductive ErrorCode where
  | browserLaunchFailed | navigationFailed | selectorNotFound | selectorAmbiguous
  | timeout | jsEvalFailed | screenshotFailed | ioError | sessionError
  | invalidInput | unsupportedMode | authError | internalError
deriving DecidableEq, Repr

/-- Rust variant identifiers of `ErrorCode` (what `derive(Debug)` prints). -/
def errorCodeDebugName : ErrorCode → String
  | .browserLaunchFailed => "BrowserLaunchFailed"
  | .navigationFailed => "NavigationFailed"
  | .selectorNotFound => "SelectorNotFound"
  | .selectorAmbiguous => "SelectorAmbiguous"
  | .timeout => "Timeout"
  | .jsEvalFailed => "JsEvalFailed"
  | .screenshotFailed => "ScreenshotFailed"
  | .ioError => "IoError"
  | .sessionError => "SessionError"
  | .invalidInput => "InvalidInput"
  | .unsupportedMode => "UnsupportedMode"
  | .authError => "AuthError"
  | .internalError => "InternalError"

/-- JSON serialization of `ErrorCode` (serde `rename_all = "SCREAMING_SNAKE_CASE"`). -/
def errorCodeSerdeName : ErrorCode → String
  | .browserLaunchFailed => "BROWSER_LAUNCH_FAILED"
  | .navigationFailed => "NAVIGATION_FAILED"
  | .selectorNotFound => "SELECTOR_NOT_FOUND"
  | .selectorAmbiguous => "SELECTOR_AMBIGUOUS"
  | .timeout => "TIMEOUT"
  | .jsEvalFailed => "JS_EVAL_FAILED"
  | .screenshotFailed => "SCREENSHOT_FAILED"
  | .ioError => "IO_ERROR"
  | .sessionError => "SESSION_ERROR"
  | .invalidInput => "INVALID_INPUT"
  | .unsupportedMode => "UNSUPPORTED_MODE"
  | .authError => "AUTH_ERROR"
  | .internalError => "INTERNAL_ERROR"

/-- The hand-written `Display` impl for `ErrorCode`. -/
def errorCodeDisplay : ErrorCode → String
  | .browserLaunchFailed => "BROWSER_LAUNCH_FAILED"
  | .navigationFailed => "NAVIGATION_FAILED"
  | .selectorNotFound => "SELECTOR_NOT_FOUND"
  | .selectorAmbiguous => "SELECTOR_AMBIGUOUS"
  | .timeout => "TIMEOUT"
  | .jsEvalFailed => "JS_EVAL_FAILED"
  | .screenshotFailed => "SCREENSHOT_FAILED"
  | .ioError => "IO_ERROR"
  | .sessionError => "SESSION_ERROR"
  | .invalidInput => "INVALID_INPUT"
  | .unsupportedMode => "UNSUPPORTED_MODE"
  | .authError => "AUTH_ERROR"
  | .internalError => "INTERNAL_ERROR"

/-- Tail step of the camel-to-screaming-snake conversion. -/
def screamingTail : List Char → List Char
  | [] => []
  | c :: rest =>
    if c.isUpper then '_' :: c :: screamingTail rest
    else c.toUpper :: screamingTail rest

/-- CamelCase → SCREAMING_SNAKE_CASE (the serde rename rule). -/
def to_screaming_snake (s : String) : String :=
  String.mk (match s.toList with
  | [] => []
  | c :: rest => c.toUpper :: screamingTail rest)

/-- Artifact categories (`enum ArtifactType`). -/
inductive ArtifactType where
  | screenshot | html | auth | trace | video | download
deriving DecidableEq, Repr

/-- Rust variant identifiers of `ArtifactType` (what `derive(Debug)` prints,
as used by `print_result_text`'s `{:?}` formatting). -/
def artifactTypeDebugName : ArtifactType → String
  | .screenshot => "Screenshot"
  | .html => "Html"
  | .auth => "Auth"
  | .trace => "Trace"
  | .video => "Video"
  | .download => "Download"

/-- JSON serialization of `ArtifactType` (serde `rename_all = "lowercase"`). -/
def artifactTypeSerdeName : ArtifactType → String
  | .screenshot => "screenshot"
  | .html => "html"
  | .auth => "auth"
  | .trace => "trace"
  | .video => "video"
  | .download => "download"

/-- Diagnostic severity (`enum DiagnosticLevel`). -/
inductive DiagnosticLevel where
  | info | warning | error
deriving DecidableEq, Repr

/-- Textual prefix used for each level by `print_result_text`. -/
def diagnosticLevelText : DiagnosticLevel → String
  | .info => "info"
  | .warning => "warning"
  | .error => "error"

/-- Where the CDP endpoint was configured (`enum CdpEndpointSource`). -/
inductive CdpEndpointSource where
  | cliFlag | context | none
deriving DecidableEq, Repr

/-- How the browser session was acquired (`enum SessionSource`). -/
inductive SessionSource where
  | daemon | cachedDescriptor | fresh | cdpConnect | persistentDebug | browserServer
deriving DecidableEq, Repr

/-- Error information for failed commands (`struct CommandError`). -/
structure CommandError where
  code : ErrorCode
  message : String
  details : Option Json

/-- Artifact produced by a command (`struct Artifact`); paths are strings. -/
structure Artifact where
  artifactType : ArtifactType
  path : String
  sizeBytes : Option Nat

/-- Diagnostic message attached to a command result (`struct Diagnostic`). -/
structure Diagnostic where
  level : DiagnosticLevel
  message : String
  source : Option String

/-- Inputs used for a command execution (`struct CommandInputs`). -/
structure CommandInputs where
  url : Option String
  selector : Option String
  expression : Option String
  outputPath : Option String
  extra : Option Json

/-- Effective configuration used for command execution (`struct EffectiveConfig`). -/
structure EffectiveConfig where
  browser : String
  headless : Bool
  waitUntil : Option String
  timeoutMs : Option Nat
  endpoint : Option String
  cdpEndpointSource : Option CdpEndpointSource
  sessionSource : Option SessionSource
  targetSource : Option String

/-- The result envelope returned by all commands (`struct CommandResult<T>`). -/
structure CommandResult (T : Type) where
  schemaVersion : Option Nat
  ok : Bool
  command : String
  inputs : Option CommandInputs
  data : Option T
  error : Option CommandError
  durationMs : Option Nat
  artifacts : List Artifact
  diagnostics : List Diagnostic
  config : Option EffectiveConfig

/-- Builder for constructing command results (`struct ResultBuilder<T>`).
`startTime` holds the `Instant` captured by `new`, as a clock reading. -/
structure ResultBuilder (T : Type) where
  schemaVersion : Option Nat
  command : String
  inputs : Option CommandInputs
  data : Option T
  error : Option CommandError
  startTime : Option Nat
  durationMs : Option Nat
  artifacts : List Artifact
  diagnostics : List Diagnostic
  config : Option EffectiveConfig

/-- `ResultBuilder::new`; `now` is the clock reading taken by `Instant::now()`. -/
def ResultBuilder.new (T : Type) (command : String) (now : Nat) : ResultBuilder T :=
  { schemaVersion := some SCHEMA_VERSION, command := command, inputs := none,
    data := none, error := none, startTime := some now, durationMs := none,
    artifacts := [], diagnostics := [], config := none }

/-- `ResultBuilder::schema_version`. -/
def ResultBuilder.schema_version {T} (b : ResultBuilder T) (version : Nat) : ResultBuilder T :=
  { b with schemaVersion := some version }

/-- `ResultBuilder::no_schema_version`. -/
def ResultBuilder.no_schema_version {T} (b : ResultBuilder T) : ResultBuilder T :=
  { b with schemaVersion := none }

/-- `ResultBuilder::inputs`. -/
def ResultBuilder.withInputs {T} (b : ResultBuilder T) (inputs : CommandInputs) : ResultBuilder T :=
  { b with inputs := some inputs }

/-- `ResultBuilder::data`. -/
def ResultBuilder.withData {T} (b : ResultBuilder T) (d : T) : ResultBuilder T :=
  { b with data := some d }

/-- `ResultBuilder::error`. -/
def ResultBuilder.withError {T} (b : ResultBuilder T) (code : ErrorCode) (message : String) :
    ResultBuilder T :=
  { b with error := some { code := code, message := message, details := none } }

/-- `ResultBuilder::error_with_details`. -/
def ResultBuilder.withErrorDetails {T} (b : ResultBuilder T) (code : ErrorCode)
    (message : String) (details : Json) : ResultBuilder T :=
  { b with error := some { code := code, message := message, details := some details } }

/-- `ResultBuilder::artifact`. -/
def ResultBuilder.withArtifact {T} (b : ResultBuilder T) (artifact : Artifact) : ResultBuilder T :=
  { b with artifacts := b.artifacts ++ [artifact] }

/-- `ResultBuilder::diagnostic`. -/
def ResultBuilder.withDiagnostic {T} (b : ResultBuilder T) (level : DiagnosticLevel)
    (message : String) : ResultBuilder T :=
  { b with diagnostics := b.diagnostics ++ [{ level := level, message := message, source := none }] }

/-- `ResultBuilder::duration_ms`. -/
def ResultBuilder.withDurationMs {T} (b : ResultBuilder T) (d : Nat) : ResultBuilder T :=
  { b with durationMs := some d }

/-- `ResultBuilder::build`; `now` is the clock reading at build time, so
`now - start` embeds `start.elapsed().as_millis()`. -/
def ResultBuilder.build {T} (b : ResultBuilder T) (now : Nat) : CommandResult T :=
  let ok := b.error.isNone && b.data.isSome
  let durationMs :=
    match b.durationMs with
    | some d => some d
    | none => b.startTime.map (fun start => now - start)
  { schemaVersion := b.schemaVersion, ok := ok, command := b.command,
    inputs := b.inputs, data := b.data, error := b.error, durationMs := durationMs,
    artifacts := b.artifacts, diagnostics := b.diagnostics, config := b.config }

/-- `print_result_text`, embedded as the list of lines written to stdout.
`prettyData` and `prettyJson` stand for `serde_json::to_string_pretty`
(returning `none` on serialization failure, in which case the source skips
the line). -/
def print_result_text_lines {T} (prettyData : T → Option String)
    (prettyJson : Json → Option String) (r : CommandResult T) : List String :=
  (if r.ok then
    match r.data with
    | some d =>
      match prettyData d with
      | some j => [j]
      | none => []
    | none => []
  else
    match r.error with
    | some err =>
      ["Error [" ++ errorCodeDisplay err.code ++ "]: " ++ err.message] ++
        (match err.details with
        | some det =>
          match prettyJson det with
          | some j => ["Details: " ++ j]
          | none => []
        | none => [])
    | none => [])
  ++ r.diagnostics.map (fun d =>
      match d.source with
      | some src => "[" ++ diagnosticLevelText d.level ++ ":" ++ src ++ "] " ++ d.message
      | none => "[" ++ diagnosticLevelText d.level ++ "] " ++ d.message)
  ++ r.artifacts.map (fun a =>
      "Saved " ++ artifactTypeDebugName a.artifactType ++ ": " ++ a.path)
  ++ (match r.durationMs with
      | some d => ["Completed in " ++ toString d ++ "ms"]
      | none => [])

/-! ## Context store (crates/cli/src/context_store/mod.rs) -/

/-- Session staleness threshold (`SESSION_TIMEOUT_SECS`). -/
def SESSION_TIMEOUT_SECS : Nat := 3600

/-- Whether a context is stored globally or per-project (`enum ContextScope`). -/
inductive ContextScope where
  | global | project
deriving DecidableEq, Repr

/-- Persisted state for a named context (`struct StoredContext`); the
browser kind is kept as its string name. -/
structure StoredContext where
  scope : ContextScope
  projectRoot : Option String
  baseUrl : Option String
  lastUrl : Option String
  lastSelector : Option String
  lastOutput : Option String
  browser : Option String
  headless : Option Bool
  authFile : Option String
  cdpEndpoint : Option String
  lastUsedAt : Option Nat
  protectedUrls : List String
deriving DecidableEq, Repr

/-- `StoredContext::default()` (`#[default]` scope is `Global`). -/
def StoredContext.empty : StoredContext :=
  { scope := ContextScope.global, projectRoot := none, baseUrl := none,
    lastUrl := none, lastSelector := none, lastOutput := none, browser := none,
    headless := none, authFile := none, cdpEndpoint := none, lastUsedAt := none,
    protectedUrls := [] }

/-- Lookup in an association-list embedding of `HashMap<String, _>`. -/
def alist_lookup {β : Type} : List (String × β) → String → Option β
  | [], _ => none
  | kv :: rest, k => if kv.1 = k then some kv.2 else alist_lookup rest k

/-- `HashMap::entry(k).or_default()` followed by a field mutation `f`
on the entry. -/
def mapUpsert {β : Type} (dflt : β) : List (String × β) → String → (β → β) → List (String × β)
  | [], k, f => [(k, f dflt)]
  | kv :: rest, k, f =>
    if kv.1 = k then (kv.1, f kv.2) :: rest else kv :: mapUpsert dflt rest k f

/-- Tracks which context is active globally and per-project (`struct ActiveContexts`). -/
structure ActiveContexts where
  globalName : Option String
  projects : List (String × String)
deriving DecidableEq, Repr

/-- On-disk format for a context store file (`struct ContextStoreFile`). -/
structure ContextStoreFile where
  schema : Nat
  active : ActiveContexts
  contexts : List (String × StoredContext)
deriving DecidableEq, Repr

/-- A context store with its scope (`struct ContextStore`; the filesystem
path is not part of the pure model). -/
structure ContextStore where
  scope : ContextScope
  file : ContextStoreFile
deriving DecidableEq, Repr

/-- `ContextStore::ensure`: gets or creates a context entry by name,
returning the entry value and the updated store. -/
def storeEnsure (s : ContextStore) (name : String) (projectRoot : Option String) :
    StoredContext × ContextStore :=
  match alist_lookup s.file.contexts name with
  | some data => (data, s)
  | none =>
    let data := { StoredContext.empty with scope := s.scope, projectRoot := projectRoot }
    (data, { s with file := { s.file with contexts := s.file.contexts ++ [(name, data)] } })

/-- Holds both global and optional project context stores (`struct ContextBook`). -/
structure ContextBook where
  globalStore : ContextStore
  project : Option ContextStore
deriving DecidableEq, Repr

/-- The currently active context with its data loaded (`struct SelectedContext`). -/
structure SelectedContext where
  name : String
  scope : ContextScope
  data : StoredContext
deriving DecidableEq, Repr

/-- `resolve_context_by_name`: project store first, then global, creating in
project if present, else in global. -/
def resolve_context_by_name (book : ContextBook) (projectRoot : Option String)
    (name : String) : ContextBook × SelectedContext :=
  match book.project with
  | some store =>
    match alist_lookup store.file.contexts name with
    | some data => (book, { name := name, scope := ContextScope.project, data := data })
    | none =>
      match alist_lookup book.globalStore.file.contexts name with
      | some data => (book, { name := name, scope := ContextScope.global, data := data })
      | none =>
        let (data, store1) := storeEnsure store name projectRoot
        ({ book with project := some store1 },
          { name := name, scope := ContextScope.project, data := data })
  | none =>
    match alist_lookup book.globalStore.file.contexts name with
    | some data => (book, { name := name, scope := ContextScope.global, data := data })
    | none =>
      let (data, g1) := storeEnsure book.globalStore name projectRoot
      ({ book with globalStore := g1 },
        { name := name, scope := ContextScope.global, data := data })

/-- `select_context`: name priority is explicit request, then the
project-active mapping, then global-active, then the literal `default`
(created and recorded as global-active). -/
def select_context (book : ContextBook) (projectRoot : Option String)
    (requested : Option String) : ContextBook × Option SelectedContext :=
  match requested with
  | some n =>
    let (book1, sel) := resolve_context_by_name book projectRoot n
    (book1, some sel)
  | none =>
    match projectRoot.bind (fun root => alist_lookup book.globalStore.file.active.projects root) with
    | some n =>
      let (book1, sel) := resolve_context_by_name book projectRoot n
      (book1, some sel)
    | none =>
      match book.globalStore.file.active.globalName with
      | some n =>
        let (book1, sel) := resolve_context_by_name book projectRoot n
        (book1, some sel)
      | none =>
        let book0 := { book with globalStore := { book.globalStore with file :=
          { book.globalStore.file with active :=
            { book.globalStore.file.active with globalName := some "default" } } } }
        let (book1, sel) := resolve_context_by_name book0 projectRoot "default"
        (book1, some sel)

/-- `is_session_stale`; `now` embeds `now_ts()` and `Nat` subtraction embeds
`u64::saturating_sub`. -/
def is_session_stale (selected : Option SelectedContext) (now : Nat) : Bool :=
  match selected with
  | none => false
  | some ctx =>
    match ctx.data.lastUsedAt with
    | none => false
    | some lastUsed => decide (SESSION_TIMEOUT_SECS < now - lastUsed)

/-- Runtime context state manager (`struct ContextState`). -/
structure ContextState where
  stores : ContextBook
  selected : Option SelectedContext
  projectRoot : Option String
  baseUrlOverride : Option String
  noContext : Bool
  noSave : Bool
  refresh : Bool
deriving DecidableEq, Repr

/-- `ContextState::new`; the loaded `ContextBook` and the clock reading `now`
are explicit inputs (the source loads the book from disk and reads the clock). -/
def ContextState.new (book : ContextBook) (projectRoot requested baseUrlOverride : Option String)
    (noContext noSave refreshFlag : Bool) (now : Nat) : ContextState :=
  let pr := if noContext then (book, none) else select_context book projectRoot requested
  let selected :=
    match pr.2, baseUrlOverride with
    | some ctx, some base => some { ctx with data := { ctx.data with baseUrl := some base } }
    | s, _ => s
  { stores := pr.1, selected := selected, projectRoot := projectRoot,
    baseUrlOverride := baseUrlOverride, noContext := noContext, noSave := noSave,
    refresh := refreshFlag || is_session_stale selected now }

/-- `ContextState::refresh_requested`. -/
def ContextState.refresh_requested (st : ContextState) : Bool := st.refresh

/-- `ContextState::has_context_url`. -/
def ContextState.has_context_url (st : ContextState) : Bool :=
  if st.noContext then false
  else if st.baseUrlOverride.isSome then true
  else
    match st.selected with
    | some s => (!st.refresh && s.data.lastUrl.isSome) || s.data.baseUrl.isSome
    | none => false

/-- `ContextState::cdp_endpoint`: reads the global `default` entry. -/
def ContextState.cdp_endpoint (st : ContextState) : Option String :=
  if st.noContext then none
  else (alist_lookup st.stores.globalStore.file.contexts "default").bind (fun c => c.cdpEndpoint)

/-- `ContextState::last_url`. -/
def ContextState.last_url (st : ContextState) : Option String :=
  if st.noContext then none
  else st.selected.bind (fun s => s.data.lastUrl)

/-- `ContextState::set_cdp_endpoint`: writes the global `default` entry and
updates the selected context's in-memory copy only when the selected context
is that global default. -/
def ContextState.set_cdp_endpoint (st : ContextState) (endpoint : Option String) : ContextState :=
  if st.noSave || st.noContext then st
  else
    let g := st.stores.globalStore
    let contexts1 :=
      mapUpsert StoredContext.empty g.file.contexts "default"
        (fun c => { c with cdpEndpoint := endpoint })
    let g1 := { g with file := { g.file with contexts := contexts1 } }
    let selected1 :=
      match st.selected with
      | some sel =>
        if sel.name = "default" ∧ sel.scope = ContextScope.global then
          some { sel with data := { sel.data with cdpEndpoint := endpoint } }
        else some sel
      | none => none
    { st with stores := { st.stores with globalStore := g1 }, selected := selected1 }

/-- `ContextState::protected_urls`. -/
def ContextState.protected_urls (st : ContextState) : List String :=
  if st.noContext then []
  else
    match st.selected with
    | some s => s.data.protectedUrls
    | none => []

/-- `ContextState::is_protected`. -/
def ContextState.is_protected (st : ContextState) (url : String) : Bool :=
  let urlLower := strLower url
  (st.protected_urls).any (fun pat => contains_sub urlLower.toList (strLower pat).toList)

/-- `ContextState::add_protected`. -/
def ContextState.add_protected (st : ContextState) (pattern : String) : ContextState × Bool :=
  if st.noSave || st.noContext then (st, false)
  else
    match st.selected with
    | none => (st, false)
    | some sel =>
      if sel.data.protectedUrls.any (fun p => strLower p == strLower pattern) then (st, false)
      else
        ({ st with selected := some { sel with data :=
            { sel.data with protectedUrls := sel.data.protectedUrls ++ [pattern] } } }, true)

/-- `ContextState::remove_protected`. -/
def ContextState.remove_protected (st : ContextState) (pattern : String) : ContextState × Bool :=
  if st.noSave || st.noContext then (st, false)
  else
    match st.selected with
    | none => (st, false)
    | some sel =>
      let kept := sel.data.protectedUrls.filter (fun p => !(strLower p == strLower pattern))
      ({ st with selected := some { sel with data := { sel.data with protectedUrls := kept } } },
        decide (kept.length < sel.data.protectedUrls.length))

/-- Context delta from command execution (`struct ContextDelta`). -/
structure ContextDelta where
  url : Option String
  selector : Option String
  output : Option String

/-- `ContextState::apply_delta`; `now` embeds `now_ts()`. -/
def ContextState.apply_delta (st : ContextState) (delta : ContextDelta) (now : Nat) : ContextState :=
  if st.noSave || st.noContext then st
  else
    match st.selected with
    | none => st
    | some sel =>
      let d0 := sel.data
      let d1 := match delta.url with | some u => { d0 with lastUrl := some u } | none => d0
      let d2 := match delta.selector with | some s => { d1 with lastSelector := some s } | none => d1
      let d3 := match delta.output with | some o => { d2 with lastOutput := some o } | none => d2
      { st with selected := some { sel with data := { d3 with lastUsedAt := some now } } }

/-! ## Readable pipeline (crates/cli/src/readable/) -/

/-- The two quote characters accepted by the `["']` regex class. -/
def quoteChars : List Char := ['"', Char.ofNat 39]

/-- `decode_html_entities` (entities.rs): a fixed chain of `str::replace`
calls applied in source order, starting with `&amp;`. -/
def decode_html_entities (s : String) : String :=
  rust_replace
    (rust_replace
      (rust_replace
        (rust_replace
          (rust_replace
            (rust_replace
              (rust_replace
                (rust_replace s "&amp;" "&")
                "&lt;" "<")
              "&gt;" ">")
            "&quot;" "\"")
          "&#39;" "\x27")
        "&apos;" "\x27")
      "&#x27;" "\x27")
    "&nbsp;" " "

/-- Collapse every maximal run of characters satisfying `isRun` into a single
`rep`; embeds one `Regex::replace_all` pass of `[ \t]+` or `\n{2,}`
(a run of length one is rewritten to itself, so the result coincides with
the `\n{2,}` rule as well).  Fuel-structural recursion as in
`replaceCharsFuel`. -/
def collapseRunsFuel (isRun : Char → Bool) (rep : Char) : Nat → List Char → List Char
  | 0, s => s
  | _ + 1, [] => []
  | fuel + 1, c :: rest =>
    if isRun c then rep :: collapseRunsFuel isRun rep fuel (rest.dropWhile isRun)
    else c :: collapseRunsFuel isRun rep fuel rest

/-- `collapse_whitespace` (entities.rs): `[ \t]+ → " "` then `\n{2,} → "\n"`. -/
def collapse_whitespace (s : String) : String :=
  let pass1 := collapseRunsFuel (fun c => c = ' ' ∨ c = '\t') ' ' s.toList.length s.toList
  String.mk (collapseRunsFuel (fun c => c = '\n') '\n' pass1.length pass1)

/-- One `replace_all` pass of `TAG_RE = <[^>]+>` (render_text.rs): at each
`<`, if the next `>` leaves at least one character in between, the whole
tag is dropped; otherwise the `<` is kept and scanning continues. -/
def stripTagsFuel : Nat → List Char → List Char
  | 0, s => s
  | _ + 1, [] => []
  | fuel + 1, c :: rest =>
    if c = '<' then
      match charFind rest '>' 0 with
      | some p =>
        if 1 ≤ p then stripTagsFuel fuel (rest.drop (p + 1))
        else c :: stripTagsFuel fuel rest
      | none => c :: stripTagsFuel fuel rest
    else c :: stripTagsFuel fuel rest

/-- Remove every case-insensitive occurrence of `pat`, scanning left to
right (the junk.rs removal loop). -/
def removeCiFuel (pat : List Char) : Nat → List Char → List Char
  | 0, s => s
  | _ + 1, [] => []
  | fuel + 1, c :: rest =>
    if pat ≠ [] ∧ (lowerChars pat).isPrefixOf (lowerChars (c :: rest)) then
      removeCiFuel pat fuel ((c :: rest).drop pat.length)
    else c :: removeCiFuel pat fuel rest

/-- Rust `str::trim` (Unicode-whitespace trim on both ends). -/
def trimChars (s : List Char) : List Char :=
  ((s.dropWhile Char.isWhitespace).reverse.dropWhile Char.isWhitespace).reverse

/-- Rust `str::trim` on strings. -/
def rust_trim (s : String) : String := String.mk (trimChars s.toList)

/-- Split at every newline character.  This embeds Rust `str::lines` up to a
trailing empty piece and carriage returns, neither of which occurs in the
renderer (empty lines are filtered immediately afterwards). -/
def splitNl : List Char → List (List Char)
  | [] => [[]]
  | c :: rest =>
    let tail := splitNl rest
    if c = '\n' then [] :: tail
    else
      match tail with
      | ln :: more => (c :: ln) :: more
      | [] => [[c]]

/-- Join lines with newlines (the final `join("\n")`). -/
def joinNl : List String → String
  | [] => ""
  | [x] => x
  | x :: rest => x ++ "\n" ++ joinNl rest

/-- Modelled from the spec: the `junk_text.exact` strings of the packaged
`clutter.json` (not among the provided sources); §4.3 describes the junk
filter and the junk.rs tests name these strings. -/
def junkExact : List String := ["NaN", "undefined", "[object Object]"]

/-- `is_junk_line` (junk.rs): strip every junk string case-insensitively,
then test whether only whitespace and the punctuation characters slash,
dash, bullet, middle dot, pipe and colon remain. -/
def is_junk_line (line : String) : Bool :=
  let remaining := junkExact.foldl (fun acc p => removeCiFuel p.toList acc.length acc) line.toList
  (trimChars remaining).all
    (fun c => c.isWhitespace || "/-•·|:".toList.contains c)

/-- `html_to_text` (render_text.rs): newline before block tags, strip tags,
decode entities, collapse whitespace, then drop empty and junk lines. -/
def html_to_text (html : String) : String :=
  let withBreaks :=
    ["p", "div", "br", "h1", "h2", "h3", "h4", "h5", "h6", "li", "tr"].foldl
      (fun acc tag => rust_replace acc ("<" ++ tag) ("\n<" ++ tag)) html
  let stripped := String.mk (stripTagsFuel withBreaks.toList.length withBreaks.toList)
  let decoded := decode_html_entities stripped
  let collapsed := collapse_whitespace decoded
  joinNl
    ((((splitNl collapsed.toList).map (fun l => rust_trim (String.mk l)))).filter
      (fun l => !(l.toList.isEmpty) && !is_junk_line l))

/-- `strip_prefix` on strings. -/
def strip_pre (p s : String) : Option String :=
  if p.toList.isPrefixOf s.toList then some (String.mk (s.toList.drop p.toList.length))
  else none

/-- `strip_suffix` on strings. -/
def strip_suf (p s : String) : Option String :=
  if p.toList.isSuffixOf s.toList then
    some (String.mk (s.toList.take (s.toList.length - p.toList.length)))
  else none

/-- All indices at which `pat` occurs in `hay`. -/
def occList (hay pat : List Char) : List Nat :=
  (List.range (hay.length + 1)).filter (fun i => pat.isPrefixOf (hay.drop i))

/-- Extraction by the pattern `(?is)<tag[^>]*>(.*?)</tag>` (the alphanumeric
selector branch of `try_extract_by_selector`, selector.rs): leftmost match
starts at the first case-insensitive `<tag`; `[^>]*>` ends at the first
following `>`; the lazy capture ends at the first following `</tag>`.
If the first candidate start lacks a `>` or a close tag, no later start can
supply one, so the whole regex fails. -/
def plain_tag_extract (h : List Char) (tag : List Char) : Option String :=
  let hl := lowerChars h
  match subFind hl ('<' :: lowerChars tag) 0 with
  | none => none
  | some i =>
    match charFind h '>' (i + 1 + tag.length) with
    | none => none
    | some j =>
      match subFind hl ('<' :: '/' :: lowerChars tag ++ ['>']) (j + 1) with
      | some k => some (String.mk (seg h (j + 1) k))
      | none => none

/-- Scan candidate open-tag positions for the attribute-qualified patterns
`(?is)<tag[^>]*ATTR[^>]*>(.*?)</tag>`: at each case-insensitive `<tag`
occurrence, the open tag spans to the first following `>`; the attribute
matcher must hold inside that span; the lazy capture ends at the first
`</tag>` after the span.  A missing `>` or close tag fails every later
candidate as well. -/
def attr_scan (h hl closePat : List Char) (taglen : Nat) (matcher : List Char → Bool) :
    List Nat → Option String
  | [] => none
  | i :: more =>
    match charFind h '>' (i + 1 + taglen) with
    | none => none
    | some g =>
      if matcher (seg h (i + 1 + taglen) g) then
        match subFind hl closePat (g + 1) with
        | some k => some (String.mk (seg h (g + 1) k))
        | none => none
      else attr_scan h hl closePat taglen matcher more

/-- Run `attr_scan` for one tag name. -/
def attr_tag_extract (h : List Char) (tag : String) (matcher : List Char → Bool) :
    Option String :=
  let hl := lowerChars h
  attr_scan h hl ('<' :: '/' :: lowerChars tag.toList ++ ['>']) tag.length matcher
    (occList hl ('<' :: lowerChars tag.toList))

/-- Matcher for `attr=["']value["']` inside an open tag (both quote
characters on either side, case-insensitive). -/
def attr_lit_matcher (attr value : List Char) (span : List Char) : Bool :=
  quoteChars.any (fun q1 => quoteChars.any (fun q2 =>
    contains_sub (lowerChars span)
      (lowerChars attr ++ '=' :: q1 :: lowerChars value ++ [q2])))

/-- Regex `\w` (regex-lite word character). -/
def word_char (c : Char) : Bool := c.isAlphanum || c = '_'

/-- Occurrence of `cls` inside a quoted attribute value with `\b` word
boundaries on both sides (the value's enclosing quotes are non-word, so the
value edges qualify). -/
def word_occurs (cls v : List Char) : Bool :=
  let vl := lowerChars v
  let cl := lowerChars cls
  (List.range (v.length + 1)).any (fun p =>
    cl.isPrefixOf (vl.drop p) &&
    (decide (p = 0) || !word_char (v.getD (p - 1) ' ')) &&
    (decide (v.length ≤ p + cls.length) || !word_char (v.getD (p + cls.length) ' ')))

/-- Matcher for `class=["'][^"']*\bcls\b[^"']*["']` inside an open tag: some
case-insensitive `class=` occurrence is followed by a quote, the value runs
to the next quote of either kind, and contains `cls` with word boundaries. -/
def class_attr_matcher (cls : List Char) (span : List Char) : Bool :=
  let sl := lowerChars span
  (List.range (span.length + 1)).any (fun o =>
    ("class=".toList).isPrefixOf (sl.drop o) &&
    (match span.drop (o + 6) with
     | [] => false
     | q1 :: restv =>
       quoteChars.contains q1 &&
       (let v := restv.takeWhile (fun c => !quoteChars.contains c)
        decide (v.length < restv.length) && word_occurs cls v)))

/-- The five container tags tried by every attribute-based selector branch. -/
def selectorTags : List String := ["div", "article", "section", "main", "aside"]

/-- `try_extract_by_selector` (selector.rs). -/
def try_extract_by_selector (html sel : String) : Option String :=
  let h := html.toList
  match sel.toList with
  | '#' :: idChars =>
    selectorTags.findSome? (fun tag =>
      attr_tag_extract h tag (attr_lit_matcher "id".toList idChars))
  | '.' :: clsChars =>
    selectorTags.findSome? (fun tag =>
      attr_tag_extract h tag (class_attr_matcher clsChars))
  | _ =>
    if ("[".toList).isPrefixOf sel.toList && contains_sub sel.toList "role=".toList then
      match (strip_pre "[role=\"" sel).bind (strip_suf "\"]") with
      | some role =>
        selectorTags.findSome? (fun tag =>
          attr_tag_extract h tag (attr_lit_matcher "role".toList role.toList))
      | none => none
    else if sel.toList.all Char.isAlphanum then
      plain_tag_extract h sel.toList
    else none

/-- `extract_body` (selector.rs), pattern `(?is)<body[^>]*>(.*)</body>`:
first case-insensitive `<body`, open tag to the first following `>`, greedy
capture to the last `</body>`. -/
def extract_body (html : String) : Option String :=
  let h := html.toList
  let hl := lowerChars h
  match subFind hl "<body".toList 0 with
  | none => none
  | some i =>
    match charFind h '>' (i + 5) with
    | none => none
    | some j =>
      match subFindLast hl "</body>".toList (j + 1) with
      | some k => some (String.mk (seg h (j + 1) k))
      | none => none

/-- Modelled from the spec: the ordered `content_selectors` of the packaged
`clutter.json` (not among the provided sources); §4.3 names `article`,
`main`, `[role=main]` and common class and id patterns, of which one id and
one class pattern are included as representatives. -/
def content_selectors : List String := ["article", "main", "[role=\"main\"]", "#content", ".content"]

/-- Loop body of `extract_main_content`: a selector is picked only when its
extracted content exceeds 100 bytes (`content.len() > 100`). -/
def selector_pick (html : String) (sel : String) : Option String :=
  match try_extract_by_selector html sel with
  | some content => if 100 < content.utf8ByteSize then some content else none
  | none => none

/-- Decidable form of "this selector does not win" used in theorem
hypotheses. -/
def selector_loses (html : String) (sel : String) : Bool :=
  match try_extract_by_selector html sel with
  | some content => decide (content.utf8ByteSize ≤ 100)
  | none => true

/-- `extract_main_content` (cleaner.rs). -/
def extract_main_content (html : String) : String :=
  match content_selectors.findSome? (selector_pick html) with
  | some content => content
  | none =>
    match extract_body html with
    | some body => body
    | none => html

/-! ## Session descriptor and `session.stop` (crates/cli/src/session/) -/

/-- Modelled from the spec: the persisted session descriptor (§3, C5;
`descriptor.rs` is not among the provided sources): pid, browser kind,
headless flag, optional CDP endpoint, optional WebSocket endpoint,
workspace id, namespace, session key, driver hash, creation timestamp. -/
structure SessionDescriptor where
  schemaVersion : Nat
  pid : Nat
  browser : String
  headless : Bool
  cdpEndpoint : Option String
  wsEndpoint : Option String
  workspaceId : String
  namespaceId : String
  sessionKey : String
  driverHash : String
  createdAt : Nat
deriving DecidableEq, Repr

/-- The descriptor-relevant filesystem state seen by a `SessionManager`:
the optional descriptor path (`SessionRepository.path`) and the parsed
content of the descriptor file when one exists. -/
structure SessionFsState where
  descriptorPath : Option String
  descriptorFile : Option SessionDescriptor
deriving DecidableEq, Repr

/-- `SessionRepository::load` (repository.rs): `None` without a path, else
the file content. -/
def repository_load (st : SessionFsState) : Option SessionDescriptor :=
  match st.descriptorPath with
  | none => none
  | some _ => st.descriptorFile

/-- `SessionRepository::clear` (repository.rs): removes the file, reporting
whether it existed. -/
def repository_clear (st : SessionFsState) : Bool × SessionFsState :=
  match st.descriptorPath with
  | none => (false, st)
  | some _ => (st.descriptorFile.isSome, { st with descriptorFile := none })

/-- The JSON payload returned by `session.stop` in its descriptor-handling
branches (keys `stopped`, `path`, `message` of the `json!` literals). -/
structure StopPayload where
  stopped : Bool
  path : Option String
  message : Option String
deriving DecidableEq, Repr

/-- Outcome of `stop_descriptor_session` up to the point where it would
attach to a live browser: either a finished payload, or the decision to
attach to `endpoint` and close the browser (driver interaction beyond the
pure model). -/
inductive StopOutcome where
  | payload (p : StopPayload)
  | attachClose (endpoint : String)
deriving DecidableEq, Repr

/-- `SessionManager::stop_descriptor_session` (manager.rs, lines 127-166),
embedded over `SessionFsState`. -/
def stop_descriptor_session (st : SessionFsState) : StopOutcome × SessionFsState :=
  match st.descriptorPath with
  | none =>
    (StopOutcome.payload
      { stopped := false, path := none, message := some "No active namespace; nothing to stop" },
      st)
  | some path =>
    match repository_load st with
    | none =>
      (StopOutcome.payload
        { stopped := false, path := none,
          message := some "No session descriptor for namespace; nothing to stop" },
        st)
    | some descriptor =>
      let endpoint :=
        match descriptor.cdpEndpoint with
        | some e => some e
        | none => descriptor.wsEndpoint
      match endpoint with
      | none =>
        let cleared := repository_clear st
        (StopOutcome.payload
          { stopped := false, path := some path,
            message := some "Descriptor missing endpoint; removed descriptor" },
          cleared.2)
      | some e => (StopOutcome.attachClose e, st)

/-! ## Command registry and batch dispatch
(crates/cli/src/commands/registry.rs, commands/run/dispatch.rs) -/

/-- Execution mode (`enum ExecMode`). -/
inductive ExecMode where
  | oneShot | batch
deriving DecidableEq, Repr

/-- `enum CommandId`, generated by `command_registry!` from the catalog in
registry.rs. -/
inductive CommandId where
  | navigate | click | fill | wait | screenshot
  | pageText | pageHtml | pageEval | pageConsole | pageRead
  | pageElements | pageSnapshot | pageCoords | pageCoordsAll
  | authLogin | authCookies | authShow | authListen
  | sessionStatus | sessionClear | sessionStart | sessionStop
  | daemonStart | daemonStop | daemonStatus
  | connect
  | tabsList | tabsSwitch | tabsClose | tabsNew
  | protectAdd | protectRemove | protectList
  | harSet | harShow | harClear
  | init
deriving DecidableEq, Repr, Inhabited

/-- One catalog entry.  `names` come from registry.rs; the first name is the
canonical `CommandDef::NAME`.  `entryInteractive` and `entryBatchAttr` are
the optional `interactive:`/`batch:` macro attributes — no entry in
registry.rs sets either, so they are `false`/`true` throughout.
`traitInteractiveOnly` is `CommandDef::INTERACTIVE_ONLY`; modelled from the
spec (the `def.rs` trait impls are not among the provided sources): §4.7
gives every command the gating bit, and scenario S3 pins `auth.login` as
interactive-only. -/
structure RegistryEntry where
  id : CommandId
  names : List String
  entryInteractive : Bool
  entryBatchAttr : Bool
  traitInteractiveOnly : Bool
deriving DecidableEq, Repr, Inhabited

/-- Build a registry entry with the registry.rs defaults. -/
def mkEntry (id : CommandId) (names : List String) (traitInteractiveOnly : Bool) :
    RegistryEntry :=
  { id := id, names := names, entryInteractive := false, entryBatchAttr := true,
    traitInteractiveOnly := traitInteractiveOnly }

/-- The command catalog (registry.rs, lines 115-153). -/
def registry : List RegistryEntry :=
  [ mkEntry CommandId.navigate ["navigate", "nav"] false,
    mkEntry CommandId.click ["click"] false,
    mkEntry CommandId.fill ["fill"] false,
    mkEntry CommandId.wait ["wait"] false,
    mkEntry CommandId.screenshot ["screenshot", "ss"] false,
    mkEntry CommandId.pageText ["page.text"] false,
    mkEntry CommandId.pageHtml ["page.html"] false,
    mkEntry CommandId.pageEval ["page.eval"] false,
    mkEntry CommandId.pageConsole ["page.console"] false,
    mkEntry CommandId.pageRead ["page.read"] false,
    mkEntry CommandId.pageElements ["page.elements"] false,
    mkEntry CommandId.pageSnapshot ["page.snapshot"] false,
    mkEntry CommandId.pageCoords ["page.coords"] false,
    mkEntry CommandId.pageCoordsAll ["page.coords-all", "page.coords_all"] false,
    mkEntry CommandId.authLogin ["auth.login", "auth-login"] true,
    mkEntry CommandId.authCookies ["auth.cookies", "auth-cookies"] false,
    mkEntry CommandId.authShow ["auth.show", "auth-show"] false,
    mkEntry CommandId.authListen ["auth.listen", "auth-listen"] false,
    mkEntry CommandId.sessionStatus ["session.status", "session-status"] false,
    mkEntry CommandId.sessionClear ["session.clear", "session-clear"] false,
    mkEntry CommandId.sessionStart ["session.start", "session-start"] false,
    mkEntry CommandId.sessionStop ["session.stop", "session-stop"] false,
    mkEntry CommandId.daemonStart ["daemon.start", "daemon-start"] false,
    mkEntry CommandId.daemonStop ["daemon.stop", "daemon-stop"] false,
    mkEntry CommandId.daemonStatus ["daemon.status", "daemon-status"] false,
    mkEntry CommandId.connect ["connect"] false,
    mkEntry CommandId.tabsList ["tabs.list", "tabs-list"] false,
    mkEntry CommandId.tabsSwitch ["tabs.switch", "tabs-switch"] false,
    mkEntry CommandId.tabsClose ["tabs.close", "tabs-close"] false,
    mkEntry CommandId.tabsNew ["tabs.new", "tabs-new"] false,
    mkEntry CommandId.protectAdd ["protect.add", "protect-add"] false,
    mkEntry CommandId.protectRemove ["protect.remove", "protect-remove"] false,
    mkEntry CommandId.protectList ["protect.list", "protect-list"] false,
    mkEntry CommandId.harSet ["har.set", "har-set"] false,
    mkEntry CommandId.harShow ["har.show", "har-show"] false,
    mkEntry CommandId.harClear ["har.clear", "har-clear"] false,
    mkEntry CommandId.init ["init"] false ]

/-- `lookup_command`: exact match against all names and aliases. -/
def lookup_command (name : String) : Option CommandId :=
  (registry.find? (fun e => e.names.contains name)).map (fun e => e.id)

/-- The entry for a command id. -/
def entry_of (cid : CommandId) : RegistryEntry :=
  (registry.find? (fun e => e.id == cid)).getD default

/-- `command_name`: canonical (first) name. -/
def command_name (cid : CommandId) : String :=
  (entry_of cid).names.headD ""

/-- The `PwError` variants reached by the embedded dispatch paths
(`error.rs` is not among the provided sources; variants beyond these two
are collapsed into `otherErr`). -/
inductive PwError where
  | unsupportedMode (msg : String)
  | contextErr (msg : String)
  | otherErr (code : ErrorCode) (msg : String)

/-- Modelled from the spec: `PwError::to_command_error` (§7): mode-gating
failures map to `unsupported-mode`; deserialization and context failures
map to `invalid-input`. -/
def to_command_error : PwError → CommandError
  | .unsupportedMode msg => { code := ErrorCode.unsupportedMode, message := msg, details := none }
  | .contextErr msg => { code := ErrorCode.invalidInput, message := msg, details := none }
  | .otherErr code msg => { code := code, message := msg, details := none }

/-- `run_command` (the `command_registry!` expansion in registry.rs), up to
the per-command tail: gating first, then `serde_json::from_value` (the
`deser` parameter), then `validate_mode`/`resolve`/`execute` (the `rest`
parameter). -/
def run_command_model {α β : Type} (e : RegistryEntry) (mode : ExecMode) (args : Json)
    (deser : Json → Except String α) (rest : α → Except PwError β) : Except PwError β :=
  let interactiveOnly := e.entryInteractive || e.traitInteractiveOnly
  let batchEnabled := e.entryBatchAttr
  if mode = ExecMode.batch ∧ batchEnabled = false then
    Except.error (PwError.unsupportedMode
      ("command \x27" ++ (e.names.headD "") ++ "\x27 is not available in batch/ndjson mode"))
  else if mode = ExecMode.batch ∧ interactiveOnly = true then
    Except.error (PwError.unsupportedMode
      ("command \x27" ++ (e.names.headD "") ++
        "\x27 is interactive-only and cannot run in batch/ndjson mode"))
  else
    match deser args with
    | Except.error msg => Except.error (PwError.contextErr ("INVALID_INPUT: " ++ msg))
    | Except.ok raw => rest raw

/-- A type-erased command outcome (`ErasedOutcome`). -/
structure ErasedOutcome where
  command : String
  data : Json
  inputs : Option Json
  delta : ContextDelta

/-- Error object of a batch response. -/
structure BatchError where
  code : String
  message : String
  details : Option Json

/-- Modelled from the spec: the NDJSON batch response (§3 C9, §6; the
`BatchResponse` type's module is not among the provided sources). -/
structure BatchResponse where
  schemaVersion : Nat
  id : String
  command : String
  ok : Bool
  data : Option Json
  error : Option BatchError
  inputs : Option Json

/-- `BatchResponse::error`: a failed response carries `ok = false` and the
error object. -/
def BatchResponse.errorResp (id command code message : String) (details : Option Json)
    (schemaVersion : Nat) : BatchResponse :=
  { schemaVersion := schemaVersion, id := id, command := command, ok := false,
    data := none, error := some { code := code, message := message, details := details },
    inputs := none }

/-- `BatchResponse::success`. -/
def BatchResponse.successResp (id command : String) (data : Json) (schemaVersion : Nat) :
    BatchResponse :=
  { schemaVersion := schemaVersion, id := id, command := command, ok := true,
    data := some data, error := none, inputs := none }

/-- `BatchResponse::with_inputs`. -/
def BatchResponse.withInputs (r : BatchResponse) (inputs : Option Json) : BatchResponse :=
  { r with inputs := inputs }

/-- An NDJSON batch request (`BatchRequest`). -/
structure BatchRequest where
  id : String
  command : String
  args : Json

/-- `execute_batch_command` (dispatch.rs): look the command up, run it in
batch mode, apply the context delta on success, map errors through
`to_command_error`.  The per-command deserializers and tails are the
`deserOf`/`restOf` families; `now` embeds `now_ts()` used by
`apply_delta`. -/
def execute_batch_command (γ : CommandId → Type)
    (deserOf : (cid : CommandId) → Json → Except String (γ cid))
    (restOf : (cid : CommandId) → γ cid → Except PwError ErasedOutcome)
    (request : BatchRequest) (ctxState : ContextState) (now : Nat)
    (schemaVersion : Nat) : BatchResponse × ContextState :=
  match lookup_command request.command with
  | none =>
    (BatchResponse.errorResp request.id request.command "UNKNOWN_COMMAND"
      ("Unknown command: " ++ request.command) none schemaVersion, ctxState)
  | some cid =>
    match run_command_model (entry_of cid) ExecMode.batch request.args
        (deserOf cid) (restOf cid) with
    | Except.ok out =>
      ((BatchResponse.successResp request.id out.command out.data schemaVersion).withInputs
        out.inputs,
        ctxState.apply_delta out.delta now)
    | Except.error e =>
      let err := to_command_error e
      (BatchResponse.errorResp request.id (command_name cid) (errorCodeDisplay err.code)
        err.message err.details schemaVersion, ctxState)

/-! ## Concrete instances used by witnesses and counterexamples -/

/-- An empty store file. -/
def emptyStoreFile : ContextStoreFile :=
  { schema := 1, active := { globalName := none, projects := [] }, contexts := [] }

/-- An empty two-store book. -/
def emptyBook : ContextBook :=
  { globalStore := { scope := ContextScope.global, file := emptyStoreFile }, project := none }

/-- A builder given both a data payload and an error. -/
def c1BadEnvelope : CommandResult Nat :=
  (((ResultBuilder.new Nat "demo" 0).withData 7).withError ErrorCode.invalidInput "boom").build 5

/-- A failed result carrying one screenshot artifact. -/
def c9DemoResult : CommandResult Nat :=
  { schemaVersion := some 4, ok := false, command := "screenshot", inputs := none,
    data := none,
    error := some { code := ErrorCode.screenshotFailed, message := "boom", details := none },
    durationMs := some 12,
    artifacts := [{ artifactType := ArtifactType.screenshot, path := "shot.png", sizeBytes := none }],
    diagnostics := [], config := none }

/-- A stored context last used at timestamp 100. -/
def demoStaleStored : StoredContext := { StoredContext.empty with lastUsedAt := some 100 }

/-- The store file holding the stale `default` context. -/
def demoStaleFile : ContextStoreFile :=
  { schema := 1, active := { globalName := some "default", projects := [] },
    contexts := [("default", demoStaleStored)] }

/-- A book whose global store holds a stale `default` context. -/
def demoStaleBook : ContextBook :=
  { globalStore := { scope := ContextScope.global, file := demoStaleFile }, project := none }

/-- The context that `select_context` picks out of `demoStaleBook`. -/
def demoStaleSel : SelectedContext :=
  { name := "default", scope := ContextScope.global, data := demoStaleStored }

/-- A project store file holding one entry named `proj`. -/
def demoC3ProjectFile : ContextStoreFile :=
  { schema := 1, active := { globalName := none, projects := [] },
    contexts := [("proj", StoredContext.empty)] }

/-- A book with an empty global store and a one-entry project store. -/
def demoC3Book : ContextBook :=
  { globalStore := { scope := ContextScope.global, file := emptyStoreFile },
    project := some { scope := ContextScope.project, file := demoC3ProjectFile } }

/-- A state whose selected context is project-scoped. -/
def demoC3State : ContextState :=
  { stores := demoC3Book,
    selected := some { name := "proj", scope := ContextScope.project, data := StoredContext.empty },
    projectRoot := some "/repo", baseUrlOverride := none,
    noContext := false, noSave := false, refresh := false }

/-- A selected context protecting the pattern `Admin`. -/
def demoC5Sel : SelectedContext :=
  { name := "default", scope := ContextScope.global,
    data := { StoredContext.empty with protectedUrls := ["Admin"] } }

/-- A state whose selected context protects the pattern `Admin`. -/
def demoC5State : ContextState :=
  { stores := emptyBook, selected := some demoC5Sel,
    projectRoot := none, baseUrlOverride := none,
    noContext := false, noSave := false, refresh := false }

/-- A state in no-context mode. -/
def demoNoCtxState : ContextState :=
  { stores := emptyBook, selected := none, projectRoot := none, baseUrlOverride := none,
    noContext := true, noSave := false, refresh := false }

/-- A selected context protecting the pattern `Foo`. -/
def demoC6Sel : SelectedContext :=
  { name := "default", scope := ContextScope.global,
    data := { StoredContext.empty with protectedUrls := ["Foo"] } }

/-- A state whose selected context protects the pattern `Foo`. -/
def demoC6State : ContextState :=
  { stores := emptyBook, selected := some demoC6Sel,
    projectRoot := none, baseUrlOverride := none,
    noContext := false, noSave := false, refresh := false }

/-- A descriptor with every field populated except the endpoints. -/
def demoC8Desc : SessionDescriptor :=
  { schemaVersion := 1, pid := 4242, browser := "chromium", headless := true,
    cdpEndpoint := none, wsEndpoint := none, workspaceId := "ws", namespaceId := "ns",
    sessionKey := "key", driverHash := "hash", createdAt := 0 }

/-- A namespace whose descriptor file holds `demoC8Desc`. -/
def demoC8State : SessionFsState :=
  { descriptorPath := some "profiles/ns/sessions/session.json",
    descriptorFile := some demoC8Desc }

/-- A 120-byte article body. -/
def c7ArticleBody : String := String.mk (List.replicate 120 'a')

/-- An article long enough to win main-content selection. -/
def c7ArticleDemo : String := "<article>" ++ c7ArticleBody ++ "</article>"

/-! ## Helper lemmas -/

theorem alist_lookup_mapUpsert_self {β : Type} (dflt : β) (m : List (String × β)) (k : String)
    (f : β → β) :
    alist_lookup (mapUpsert dflt m k f) k = some (f ((alist_lookup m k).getD dflt)) := by
  induction m with
  | nil => simp [mapUpsert, alist_lookup]
  | cons kv rest ih =>
    by_cases h : kv.1 = k
    · simp [mapUpsert, alist_lookup, h]
    · simp [mapUpsert, alist_lookup, h, ih]

theorem alist_lookup_mapUpsert_other {β : Type} (dflt : β) (m : List (String × β)) (k k2 : String)
    (f : β → β) (h : k2 ≠ k) :
    alist_lookup (mapUpsert dflt m k f) k2 = alist_lookup m k2 := by
  have hne : k ≠ k2 := fun e => h e.symm
  induction m with
  | nil =>
    simp only [mapUpsert, alist_lookup]
    rw [if_neg hne]
  | cons kv rest ih =>
    simp only [mapUpsert]
    by_cases hk : kv.1 = k
    · rw [if_pos hk]
      have hne2 : kv.1 ≠ k2 := by rw [hk]; exact hne
      simp only [alist_lookup]
      rw [if_neg hne2, if_neg hne2]
    · rw [if_neg hk]
      simp only [alist_lookup]
      by_cases hk2 : kv.1 = k2
      · rw [if_pos hk2, if_pos hk2]
      · rw [if_neg hk2, if_neg hk2]
        exact ih

theorem filter_length_lt_iff {α : Type} (p : α → Bool) (l : List α) :
    (l.filter p).length < l.length ↔ ∃ x ∈ l, p x = false := by
  induction l with
  | nil => simp
  | cons a rest ih =>
    by_cases h : p a
    · simpa [List.filter_cons, h, Nat.succ_lt_succ_iff] using ih
    · have hle := List.length_filter_le p rest
      simp only [List.filter_cons, h, Bool.false_eq_true, if_false, List.length_cons]
      constructor
      · intro _; exact ⟨a, List.mem_cons_self a rest, by simpa using h⟩
      · intro _; omega

theorem findSome_append_of_none {α β : Type} (f : α → Option β) (l1 l2 : List α)
    (h : ∀ x ∈ l1, f x = none) :
    (l1 ++ l2).findSome? f = l2.findSome? f := by
  induction l1 with
  | nil => simp
  | cons a rest ih =>
    have ha : f a = none := h a (List.mem_cons_self a rest)
    simp only [List.cons_append, List.findSome?_cons, ha]
    exact ih (fun x hx => h x (List.mem_cons_of_mem a hx))

theorem findSome_eq_none_of_all {α β : Type} (f : α → Option β) (l : List α)
    (h : ∀ x ∈ l, f x = none) :
    l.findSome? f = none := by
  induction l with
  | nil => simp
  | cons a rest ih =>
    have ha : f a = none := h a (List.mem_cons_self a rest)
    simp only [List.findSome?_cons, ha]
    exact ih (fun x hx => h x (List.mem_cons_of_mem a hx))

theorem selector_loses_pick (html sel : String) (h : selector_loses html sel = true) :
    selector_pick html sel = none := by
  unfold selector_loses at h
  unfold selector_pick
  cases hx : try_extract_by_selector html sel with
  | none => rfl
  | some content =>
    rw [hx] at h
    simp only [decide_eq_true_eq] at h
    simp [Nat.not_lt_of_le h]

/-! ## Claim theorems -/

/-- C1 counterexample: a builder given both a data payload and an error
produces an envelope with `ok = false` that still carries the data payload
(and carries both data and error), so a failed envelope does not always
have absent data. -/
theorem c1_counterexample :
    c1BadEnvelope.ok = false ∧ c1BadEnvelope.data = some 7 ∧ c1BadEnvelope.error.isSome = true :=
  ⟨rfl, rfl, rfl⟩

/-- C1 (amended): for every envelope built by `ResultBuilder::build`, the
`ok` flag is true if and only if the data payload is present and the error
field is absent.  (The original claim's second half — that `ok = false`
implies data absent and error present — does not hold: `build` computes
`ok` but does not enforce exclusivity of `data` and `error`.) -/
theorem c1_envelope_ok_iff {T : Type} (b : ResultBuilder T) (now : Nat) :
    (b.build now).ok = true ↔ ((b.build now).data.isSome = true ∧ (b.build now).error = none) := by
  simp [ResultBuilder.build, Bool.and_eq_true, Option.isNone_iff_eq_none, and_comm]

/-- C10: `decode_html_entities` substitutes sequentially starting with
`&amp;`, so the literal text `&amp;lt;` double-decodes to `<` rather than
`&lt;`, and `html_to_text` of HTML containing that escaped entity text
renders the unescaped character. -/
theorem c10_entity_double_decode :
    decode_html_entities "&amp;lt;" = "<" ∧ html_to_text "<p>&amp;lt;</p>" = "<" :=
  ⟨rfl, rfl⟩

/-- C8: when a descriptor exists for the namespace but carries neither a CDP
endpoint nor a WebSocket endpoint, `session.stop` deletes the descriptor and
returns `stopped = false` with message
`Descriptor missing endpoint; removed descriptor`, without attempting to
attach to or close any browser (the outcome is a finished payload, not an
attach-and-close). -/
theorem c8_stop_missing_endpoint (st : SessionFsState) (path : String) (d : SessionDescriptor)
    (h1 : st.descriptorPath = some path) (h2 : st.descriptorFile = some d)
    (h3 : d.cdpEndpoint = none) (h4 : d.wsEndpoint = none) :
    stop_descriptor_session st =
      (StopOutcome.payload
        { stopped := false, path := some path,
          message := some "Descriptor missing endpoint; removed descriptor" },
        { st with descriptorFile := none }) := by
  simp [stop_descriptor_session, repository_load, repository_clear, h1, h2, h3, h4]

/-- C8 witness at a concrete descriptor missing both endpoints. -/
theorem c8_stop_missing_endpoint_witness :
    stop_descriptor_session demoC8State =
      (StopOutcome.payload
        { stopped := false, path := some "profiles/ns/sessions/session.json",
          message := some "Descriptor missing endpoint; removed descriptor" },
        { demoC8State with descriptorFile := none }) :=
  c8_stop_missing_endpoint demoC8State "profiles/ns/sessions/session.json" demoC8Desc
    rfl rfl rfl rfl

/-- C5: `is_protected(U)` is true exactly when some pattern of
`protected_urls()` occurs, lowercased, inside the lowercased URL; and in
no-context mode `protected_urls()` is empty, so `is_protected` is always
false there. -/
theorem c5_protected_matching (st : ContextState) (url : String) :
    (st.is_protected url = true ↔
      ∃ p ∈ st.protected_urls, contains_sub (strLower url).toList (strLower p).toList = true)
    ∧ (st.noContext = true → st.protected_urls = [] ∧ st.is_protected url = false) := by
  constructor
  · simp [ContextState.is_protected, List.any_eq_true]
  · intro h
    simp [ContextState.protected_urls, ContextState.is_protected, h]

/-- C5 witness: a protected pattern matches case-insensitively, and a
no-context state has no protected patterns and protects nothing. -/
theorem c5_protected_matching_witness :
    demoC5State.is_protected "https://ADMIN.example.com/x" = true
    ∧ demoNoCtxState.protected_urls = []
    ∧ demoNoCtxState.is_protected "https://admin.example.com/x" = false := by
  refine ⟨?_, ?_, ?_⟩
  · exact (c5_protected_matching demoC5State "https://ADMIN.example.com/x").1.mpr
      ⟨"Admin", by decide, by decide⟩
  · exact ((c5_protected_matching demoNoCtxState "https://admin.example.com/x").2 rfl).1
  · exact ((c5_protected_matching demoNoCtxState "https://admin.example.com/x").2 rfl).2

/-- C6: `add_protected` and `remove_protected` are idempotent with
case-insensitive de-duplication: adding a pattern already present up to
lowercasing returns false and leaves the state unchanged (so add twice
equals add once); removing deletes every entry equal up to lowercasing and
returns true exactly when the list shrank (so remove twice equals remove
once). -/
theorem c6_protected_idempotence (st : ContextState) (pattern : String) :
    ((st.add_protected pattern).1.add_protected pattern = ((st.add_protected pattern).1, false))
    ∧ ((st.remove_protected pattern).1.remove_protected pattern
        = ((st.remove_protected pattern).1, false))
    ∧ ((∃ q ∈ st.protected_urls, strLower q = strLower pattern) →
        st.add_protected pattern = (st, false))
    ∧ (∀ sel, st.noSave = false → st.noContext = false → st.selected = some sel →
        ((st.remove_protected pattern).2 = true ↔
          ∃ q ∈ sel.data.protectedUrls, strLower q = strLower pattern)) := by
  refine ⟨?_, ?_, ?_, ?_⟩
  · by_cases hg : (st.noSave || st.noContext) = true
    · simp [ContextState.add_protected, hg]
    · rw [Bool.not_eq_true] at hg
      cases hsel : st.selected with
      | none => simp [ContextState.add_protected, hg, hsel]
      | some sel =>
        by_cases hany : sel.data.protectedUrls.any (fun p => strLower p == strLower pattern) = true
        · simp [ContextState.add_protected, hg, hsel, hany]
        · rw [Bool.not_eq_true] at hany
          simp [ContextState.add_protected, hg, hsel, hany, List.any_append]
  · by_cases hg : (st.noSave || st.noContext) = true
    · simp [ContextState.remove_protected, hg]
    · rw [Bool.not_eq_true] at hg
      cases hsel : st.selected with
      | none => simp [ContextState.remove_protected, hg, hsel]
      | some sel =>
        have h1 : st.remove_protected pattern
            = ({ st with selected := some { sel with data := { sel.data with
                  protectedUrls := sel.data.protectedUrls.filter
                    (fun p => !(strLower p == strLower pattern)) } } },
                decide ((sel.data.protectedUrls.filter
                    (fun p => !(strLower p == strLower pattern))).length
                  < sel.data.protectedUrls.length)) := by
          simp [ContextState.remove_protected, hg, hsel]
        have hself : ∀ x ∈ sel.data.protectedUrls.filter
            (fun p => !(strLower p == strLower pattern)),
            (fun p => !(strLower p == strLower pattern)) x = true :=
          fun x hx => (List.mem_filter.mp hx).2
        have hkeep : (sel.data.protectedUrls.filter
              (fun p => !(strLower p == strLower pattern))).filter
              (fun p => !(strLower p == strLower pattern))
            = sel.data.protectedUrls.filter (fun p => !(strLower p == strLower pattern)) :=
          List.filter_eq_self.mpr hself
        rw [h1]
        simp [ContextState.remove_protected, hg, hkeep]
  · intro hexists
    by_cases hg : (st.noSave || st.noContext) = true
    · simp [ContextState.add_protected, hg]
    · rw [Bool.not_eq_true, Bool.or_eq_false_iff] at hg
      cases hsel : st.selected with
      | none =>
        exfalso
        rcases hexists with ⟨q, hq, _⟩
        rw [ContextState.protected_urls, if_neg (by simp [hg.2]), hsel] at hq
        simp at hq
      | some sel =>
        have hex2 : ∃ q ∈ sel.data.protectedUrls, strLower q = strLower pattern := by
          rcases hexists with ⟨q, hq, heq⟩
          rw [ContextState.protected_urls, if_neg (by simp [hg.2]), hsel] at hq
          exact ⟨q, hq, heq⟩
        simp [ContextState.add_protected, hg.1, hg.2, hsel, hex2]
  · intro sel hns hnc hsel
    simp only [ContextState.remove_protected, hns, hnc, Bool.or_self, Bool.false_eq_true,
      if_false, hsel]
    rw [decide_eq_true_iff]
    rw [filter_length_lt_iff]
    constructor
    · rintro ⟨q, hq, hfq⟩
      exact ⟨q, hq, by simpa using hfq⟩
    · rintro ⟨q, hq, heq⟩
      exact ⟨q, hq, by simpa using heq⟩

/-- C6 witness: adding an already-present pattern (case-insensitively)
returns false and leaves the state unchanged, and removing it reports that
the list shrank. -/
theorem c6_protected_idempotence_witness :
    demoC6State.add_protected "FOO" = (demoC6State, false)
    ∧ (demoC6State.remove_protected "FOO").2 = true := by
  refine ⟨?_, ?_⟩
  · exact (c6_protected_idempotence demoC6State "FOO").2.2.1 ⟨"Foo", by decide, by decide⟩
  · exact ((c6_protected_idempotence demoC6State "FOO").2.2.2 demoC6Sel rfl rfl rfl).mpr
      ⟨"Foo", by decide, by decide⟩

/-- C3: with saving and context usage enabled, `set_cdp_endpoint(Some(E))`
always lands in the global store's `default` entry — so `cdp_endpoint()`
afterwards returns `Some(E)` regardless of the selected context's scope —
the project store is untouched, other global entries are untouched, and the
selected context's in-memory copy is updated exactly when the selected
context is the global `default` entry. -/
theorem c3_cdp_locality (st : ContextState) (E : String)
    (h1 : st.noSave = false) (h2 : st.noContext = false) :
    (st.set_cdp_endpoint (some E)).cdp_endpoint = some E
    ∧ (st.set_cdp_endpoint (some E)).stores.project = st.stores.project
    ∧ (∀ name, name ≠ "default" →
        alist_lookup (st.set_cdp_endpoint (some E)).stores.globalStore.file.contexts name
          = alist_lookup st.stores.globalStore.file.contexts name)
    ∧ (∀ sel, st.selected = some sel →
        (st.set_cdp_endpoint (some E)).selected =
          some (if sel.name = "default" ∧ sel.scope = ContextScope.global then
            { sel with data := { sel.data with cdpEndpoint := some E } }
          else sel)) := by
  refine ⟨?_, ?_, ?_, ?_⟩
  · simp only [ContextState.set_cdp_endpoint, h1, h2, Bool.or_self, Bool.false_eq_true, if_false]
    simp only [ContextState.cdp_endpoint, h2, Bool.false_eq_true, if_false]
    rw [alist_lookup_mapUpsert_self]
    rfl
  · simp [ContextState.set_cdp_endpoint, h1, h2]
  · intro name hname
    simp only [ContextState.set_cdp_endpoint, h1, h2, Bool.or_self, Bool.false_eq_true, if_false]
    exact alist_lookup_mapUpsert_other _ _ _ _ _ hname
  · intro sel hsel
    simp only [ContextState.set_cdp_endpoint, h1, h2, Bool.or_self, Bool.false_eq_true, if_false,
      hsel]
    split
    · rfl
    · rfl

/-- C3 witness at a project-scoped selected context: the endpoint is
readable back, the project store is untouched, and the selected context's
copy is not updated (it is not the global default). -/
theorem c3_cdp_locality_witness :
    (demoC3State.set_cdp_endpoint (some "ws://127.0.0.1:9222/x")).cdp_endpoint
        = some "ws://127.0.0.1:9222/x"
    ∧ (demoC3State.set_cdp_endpoint (some "ws://127.0.0.1:9222/x")).stores.project
        = demoC3State.stores.project
    ∧ (demoC3State.set_cdp_endpoint (some "ws://127.0.0.1:9222/x")).selected
        = some { name := "proj", scope := ContextScope.project, data := StoredContext.empty } := by
  have h := c3_cdp_locality demoC3State "ws://127.0.0.1:9222/x" rfl rfl
  refine ⟨h.1, h.2.1, ?_⟩
  have h4 := h.2.2.2 { name := "proj", scope := ContextScope.project, data := StoredContext.empty }
    rfl
  rw [h4]
  decide

/-- C4: if at construction the selected context's `last_used_at` satisfies
`now - last_used_at > 3600`, the state is marked refresh-requested, and
`has_context_url()` returns false for a context whose only URL is the cached
`last_url` (no base-url override and no stored base-url), while a context
with a base-url still reports true. -/
theorem c4_staleness (book : ContextBook) (projectRoot requested baseUrlOverride : Option String)
    (noContext noSave refreshFlag : Bool) (now : Nat) (st : ContextState)
    (sel : SelectedContext) (t : Nat)
    (hst : st = ContextState.new book projectRoot requested baseUrlOverride
      noContext noSave refreshFlag now)
    (hsel : st.selected = some sel)
    (ht : sel.data.lastUsedAt = some t)
    (hstale : SESSION_TIMEOUT_SECS < now - t) :
    st.refresh_requested = true
    ∧ (baseUrlOverride = none → sel.data.baseUrl = none → st.has_context_url = false)
    ∧ (sel.data.baseUrl.isSome = true → st.has_context_url = true) := by
  subst hst
  have hrefresh : (ContextState.new book projectRoot requested baseUrlOverride
      noContext noSave refreshFlag now).refresh
      = (refreshFlag || is_session_stale (ContextState.new book projectRoot requested
          baseUrlOverride noContext noSave refreshFlag now).selected now) := rfl
  have hr : (ContextState.new book projectRoot requested baseUrlOverride
      noContext noSave refreshFlag now).refresh = true := by
    rw [hrefresh, hsel]
    simp [is_session_stale, ht, hstale]
  have hnc : (ContextState.new book projectRoot requested baseUrlOverride
      noContext noSave refreshFlag now).noContext = false := by
    cases hc : noContext with
    | false => rfl
    | true =>
      exfalso
      rw [hc] at hsel
      simp [ContextState.new] at hsel
  have hb : (ContextState.new book projectRoot requested baseUrlOverride
      noContext noSave refreshFlag now).baseUrlOverride = baseUrlOverride := rfl
  refine ⟨hr, ?_, ?_⟩
  · intro hover hbase
    have hbover : (ContextState.new book projectRoot requested baseUrlOverride
        noContext noSave refreshFlag now).baseUrlOverride = none := hb.trans hover
    rw [ContextState.has_context_url, hnc, hbover, hsel, hr]
    simp [hbase]
  · intro hbase
    rw [ContextState.has_context_url, hnc, hb, hsel]
    simp [hbase]

/-- C4 witness: constructing at clock 4000 over a `default` context last
used at 100 marks refresh and suppresses the cached-URL-only context URL. -/
theorem c4_staleness_witness :
    (ContextState.new demoStaleBook none none none false false false 4000).refresh_requested = true
    ∧ (ContextState.new demoStaleBook none none none false false false 4000).has_context_url
        = false := by
  have h := c4_staleness demoStaleBook none none none false false false 4000
    (ContextState.new demoStaleBook none none none false false false 4000)
    demoStaleSel 100 rfl (by decide) (by decide) (by decide)
  exact ⟨h.1, h.2.1 rfl (by decide)⟩

/-- C2: a command whose effective gating is interactive-only or not
batch-enabled fails batch dispatch with an unsupported-mode error no matter
what the args JSON is and no matter what the deserializer and command tail
would do (gating is checked before deserialization); in particular a batch
request for `auth.login` yields a response with `ok = false` and error code
`UNSUPPORTED_MODE`. -/
theorem c2_batch_gating {α β : Type} :
    (∀ (e : RegistryEntry) (args : Json) (deser : Json → Except String α)
        (rest : α → Except PwError β),
      ((e.entryInteractive || e.traitInteractiveOnly) = true ∨ e.entryBatchAttr = false) →
      ∃ msg, run_command_model e ExecMode.batch args deser rest
        = Except.error (PwError.unsupportedMode msg))
    ∧ (∀ (γ : CommandId → Type) (deserOf : (cid : CommandId) → Json → Except String (γ cid))
        (restOf : (cid : CommandId) → γ cid → Except PwError ErasedOutcome)
        (args : Json) (ctxState : ContextState) (now schemaVersion : Nat),
      ((execute_batch_command γ deserOf restOf
          { id := "1", command := "auth.login", args := args }
          ctxState now schemaVersion).1.ok = false)
      ∧ ((execute_batch_command γ deserOf restOf
          { id := "1", command := "auth.login", args := args }
          ctxState now schemaVersion).1.error.map BatchError.code
            = some "UNSUPPORTED_MODE")) := by
  constructor
  · intro e args deser rest h
    by_cases hb : e.entryBatchAttr = false
    · exact ⟨"command \x27" ++ (e.names.headD "") ++ "\x27 is not available in batch/ndjson mode",
        by simp [run_command_model, hb]⟩
    · have hba : e.entryBatchAttr = true := by
        cases hx : e.entryBatchAttr
        · exact absurd hx hb
        · rfl
      have hio : (e.entryInteractive || e.traitInteractiveOnly) = true := by
        rcases h with h | h
        · exact h
        · exact absurd h hb
      exact ⟨"command \x27" ++ (e.names.headD "") ++
          "\x27 is interactive-only and cannot run in batch/ndjson mode",
        by simp [run_command_model, hba, hio]⟩
  · intro γ deserOf restOf args ctxState now schemaVersion
    exact ⟨rfl, rfl⟩

/-- C2 witness: a malformed-args batch request for `auth.login` (whose
deserializer always fails) is rejected with unsupported-mode, and the batch
response carries `ok = false` with code `UNSUPPORTED_MODE`. -/
theorem c2_batch_gating_witness :
    (∃ msg, run_command_model (entry_of CommandId.authLogin) ExecMode.batch Json.null
        (fun _ => (Except.error "malformed" : Except String Json))
        (fun raw => (Except.ok raw : Except PwError Json))
      = Except.error (PwError.unsupportedMode msg))
    ∧ ((execute_batch_command (fun _ => Json)
        (fun _ => fun _ => (Except.error "malformed" : Except String Json))
        (fun _ => fun _ => Except.error (PwError.otherErr ErrorCode.internalError "unused"))
        { id := "1", command := "auth.login", args := Json.null }
        demoNoCtxState 0 4).1.ok = false)
    ∧ ((execute_batch_command (fun _ => Json)
        (fun _ => fun _ => (Except.error "malformed" : Except String Json))
        (fun _ => fun _ => Except.error (PwError.otherErr ErrorCode.internalError "unused"))
        { id := "1", command := "auth.login", args := Json.null }
        demoNoCtxState 0 4).1.error.map BatchError.code = some "UNSUPPORTED_MODE") := by
  refine ⟨?_, ?_, ?_⟩
  · exact (c2_batch_gating (α := Json) (β := Json)).1 (entry_of CommandId.authLogin) Json.null
      (fun _ => Except.error "malformed") (fun raw => Except.ok raw)
      (Or.inl (by decide))
  · exact ((c2_batch_gating (α := Json) (β := Json)).2 (fun _ => Json)
      (fun _ => fun _ => Except.error "malformed")
      (fun _ => fun _ => Except.error (PwError.otherErr ErrorCode.internalError "unused"))
      Json.null demoNoCtxState 0 4).1
  · exact ((c2_batch_gating (α := Json) (β := Json)).2 (fun _ => Json)
      (fun _ => fun _ => Except.error "malformed")
      (fun _ => fun _ => Except.error (PwError.otherErr ErrorCode.internalError "unused"))
      Json.null demoNoCtxState 0 4).2

/-- C7 counterexample: `extract_main_content` can return an empty result on
non-empty input — an HTML document whose `<body>` element is empty falls
through every selector and the `<body>` fallback captures the empty body
contents. -/
theorem c7_counterexample :
    extract_main_content "<body></body>" = "" ∧ "<body></body>" ≠ "" := by
  exact ⟨rfl, by decide⟩

/-- C7 (amended): main-content selection tries each configured content
selector in order and a selector's extracted body is chosen only if it
exceeds 100 bytes; if no selector yields such a body the `<body>` contents
are used, and if no body can be extracted the original HTML is returned
unchanged.  (The original claim's parenthetical — that the result is never
empty on non-empty input — fails when the body element is empty.) -/
theorem c7_main_content_selection (html : String) :
    (∀ (l1 : List String) (sel : String) (l2 : List String) (c : String),
      content_selectors = l1 ++ sel :: l2 →
      l1.all (selector_loses html) = true →
      try_extract_by_selector html sel = some c →
      100 < c.utf8ByteSize →
      extract_main_content html = c)
    ∧ (content_selectors.all (selector_loses html) = true →
      (∀ b, extract_body html = some b → extract_main_content html = b)
      ∧ (extract_body html = none → extract_main_content html = html)) := by
  constructor
  · intro l1 sel l2 c hsplit hall hx hsize
    have hnone : ∀ s ∈ l1, selector_pick html s = none := by
      intro s hs
      exact selector_loses_pick html s (List.all_eq_true.mp hall s hs)
    have hpick : selector_pick html sel = some c := by
      unfold selector_pick
      rw [hx]
      simp [hsize]
    rw [extract_main_content, hsplit, findSome_append_of_none _ _ _ hnone]
    simp [List.findSome?_cons, hpick]
  · intro hall
    have hnone : ∀ s ∈ content_selectors, selector_pick html s = none := by
      intro s hs
      exact selector_loses_pick html s (List.all_eq_true.mp hall s hs)
    have hfs : content_selectors.findSome? (selector_pick html) = none :=
      findSome_eq_none_of_all _ _ hnone
    constructor
    · intro b hb
      rw [extract_main_content, hfs, hb]
    · intro hb
      rw [extract_main_content, hfs, hb]

/-- C7 witness: a long `<article>` wins selection ahead of the fallbacks,
and with no winning selector the `<body>` contents are used. -/
theorem c7_main_content_selection_witness :
    extract_main_content c7ArticleDemo = c7ArticleBody
    ∧ extract_main_content "<body>Hello</body>" = "Hello" := by
  constructor
  · exact (c7_main_content_selection c7ArticleDemo).1 []
      "article" ["main", "[role=\"main\"]", "#content", ".content"] c7ArticleBody
      rfl rfl (by decide) (by decide)
  · exact ((c7_main_content_selection "<body>Hello</body>").2 (by decide)).1 "Hello" (by decide)

/-- C9 counterexample: the text serializer's artifact line renders the
Debug (capitalized) variant name, not the lowercase kind — a screenshot
artifact prints `Saved Screenshot: shot.png`, never
`Saved screenshot: shot.png`. -/
theorem c9_counterexample :
    ("Saved Screenshot: shot.png"
        ∈ print_result_text_lines (fun (_ : Nat) => none) (fun _ => none) c9DemoResult)
    ∧ ¬ ("Saved screenshot: shot.png"
        ∈ print_result_text_lines (fun (_ : Nat) => none) (fun _ => none) c9DemoResult) := by
  constructor
  · decide
  · decide

/-- C9 (amended): error codes render as the SCREAMING_SNAKE_CASE variant
name both in JSON serialization and in the `Display` output used by the
text serializer's `Error [<code>]: <message>` line; artifact kinds
serialize to JSON as the lowercase variant name, but the text serializer's
`Saved <kind>: <path>` line renders the Debug (capitalized) variant name
rather than the lowercase one. -/
theorem c9_rendering :
    (∀ c, errorCodeSerdeName c = to_screaming_snake (errorCodeDebugName c))
    ∧ (∀ c, errorCodeDisplay c = errorCodeSerdeName c)
    ∧ (∀ a, artifactTypeSerdeName a = strLower (artifactTypeDebugName a))
    ∧ (∀ (T : Type) (prettyData : T → Option String) (prettyJson : Json → Option String)
        (r : CommandResult T) (err : CommandError),
      r.ok = false → r.error = some err →
      ("Error [" ++ errorCodeDisplay err.code ++ "]: " ++ err.message)
        ∈ print_result_text_lines prettyData prettyJson r)
    ∧ (∀ (T : Type) (prettyData : T → Option String) (prettyJson : Json → Option String)
        (r : CommandResult T) (a : Artifact),
      a ∈ r.artifacts →
      ("Saved " ++ artifactTypeDebugName a.artifactType ++ ": " ++ a.path)
        ∈ print_result_text_lines prettyData prettyJson r) := by
  refine ⟨?_, ?_, ?_, ?_, ?_⟩
  · intro c; cases c <;> rfl
  · intro c; cases c <;> rfl
  · intro a; cases a <;> rfl
  · intro T prettyData prettyJson r err hok herr
    unfold print_result_text_lines
    rw [hok, herr]
    simp
  · intro T prettyData prettyJson r a ha
    unfold print_result_text_lines
    have hline : ("Saved " ++ artifactTypeDebugName a.artifactType ++ ": " ++ a.path)
        ∈ r.artifacts.map (fun x => "Saved " ++ artifactTypeDebugName x.artifactType ++ ": " ++ x.path) :=
      List.mem_map_of_mem _ ha
    exact List.mem_append_left _ (List.mem_append_right _ hline)

/-- C9 witness at a failed screenshot result: the error line uses the
SCREAMING_SNAKE_CASE display form and the artifact line uses the Debug
name. -/
theorem c9_rendering_witness :
    ("Error [SCREENSHOT_FAILED]: boom"
        ∈ print_result_text_lines (fun (_ : Nat) => none) (fun _ => none) c9DemoResult)
    ∧ ("Saved Screenshot: shot.png"
        ∈ print_result_text_lines (fun (_ : Nat) => none) (fun _ => none) c9DemoResult) := by
  constructor
  · exact c9_rendering.2.2.2.1 Nat (fun _ => none) (fun _ => none) c9DemoResult
      { code := ErrorCode.screenshotFailed, message := "boom", details := none } rfl rfl
  · exact c9_rendering.2.2.2.2 Nat (fun _ => none) (fun _ => none) c9DemoResult
      { artifactType := ArtifactType.screenshot, path := "shot.png", sizeBytes := none }
      (List.mem_singleton_self _)
